import Mathlib

/-!
Verification development for the `ensyu-lambda-function.py` CRUD request
handler (file `src/Msi-Chapter3-Ensyu/lambda/ensyu-lambda-function.py`).

The handler is embedded shallowly:

* Python values that can appear in a gateway event, in a `json.loads`
  result, or in a stored item are modelled by the inductive type `Val`
  (JSON-like dynamic values, plus the non-finite float constants that
  Python's `json` module accepts).
* Python dicts are association lists `Obj := List (String × Val)`;
  `json.loads` keeps the last binding of a duplicated key, which
  `oset` reproduces.
* Exceptions are modelled with `Except PyErr`: `PyErr.valueError msg`
  is a `ValueError` (the only kind the code raises and catches by
  name), `PyErr.exc` is any other exception (`AttributeError`,
  `TypeError`, ...), caught only by the outermost `except Exception`.
* The DynamoDB table is external to the program; it is modelled from
  the spec's store-collaborator interface (§6) as an association list
  from key values to attribute maps, and each invocation is given a
  `StoreOutcome` telling whether its (single) store call succeeds,
  fails with a `ClientError`/`BotoCoreError` (caught at the call
  site), or fails with any other exception (propagates to the
  boundary).

Known modelling corners, none of which a claim depends on: string
`upper`/`lower` are ASCII-only here while Python's are Unicode-aware;
float literals are kept as exact decimal mantissa/exponent pairs (the
program never does arithmetic on payload numbers, only truthiness and
`isinstance` checks); `json.dumps` of a non-integer number is not
byte-faithful to CPython's float `repr`; a `RecursionError` on
absurdly nested JSON is mapped to a parse failure.
-/

namespace EnsyuLambda

/-- A Python value as it can appear in an event envelope, a parsed JSON
body, or a stored item: `None`, `bool`, numbers (exact decimal
`mantissa * 10 ^ exp10`), `str`, `list`, `dict`, and the non-finite
float constants `NaN` / `Infinity` / `-Infinity` that `json.loads`
accepts by default. -/
inductive Val where
  | null : Val
  | bool (b : Bool) : Val
  | num (mantissa : Int) (exp10 : Int) : Val
  | nanV : Val
  | infV (neg : Bool) : Val
  | str (s : String) : Val
  | arr (elems : List Val) : Val
  | obj (fields : List (String × Val)) : Val

/-- A Python dict with string keys: an insertion-ordered association list. -/
abbrev Obj := List (String × Val)

/-- Python truthiness (`bool(v)`): `None`, `False`, zero, empty string,
empty list and empty dict are falsy; `NaN` and the infinities are truthy. -/
def Val.truthy : Val → Bool
  | .null => false
  | .bool b => b
  | .num m _ => m != 0
  | .nanV => true
  | .infV _ => true
  | .str s => s != ""
  | .arr xs => !xs.isEmpty
  | .obj fs => !fs.isEmpty

/-- `isinstance(v, str)`. -/
def Val.isStr : Val → Bool
  | .str _ => true
  | _ => false

mutual

/-- Structural equality on `Val`, used for store-key comparison.
Mirrors Python `==` on JSON-decoded data for the cases the handler can
reach (`NaN == NaN` is `False` in Python, reproduced here). -/
def Val.beq : Val → Val → Bool
  | .null, .null => true
  | .bool a, .bool b => a == b
  | .num m e, .num m' e' => m == m' && e == e'
  | .infV a, .infV b => a == b
  | .str a, .str b => a == b
  | .arr xs, .arr ys => Val.beqList xs ys
  | .obj fs, .obj gs => Val.beqFields fs gs
  | _, _ => false

/-- Elementwise `Val.beq` on lists. -/
def Val.beqList : List Val → List Val → Bool
  | [], [] => true
  | x :: xs, y :: ys => Val.beq x y && Val.beqList xs ys
  | _, _ => false

/-- Elementwise `Val.beq` on field lists. -/
def Val.beqFields : List (String × Val) → List (String × Val) → Bool
  | [], [] => true
  | (k, v) :: fs, (k', v') :: gs => k == k' && Val.beq v v' && Val.beqFields fs gs
  | _, _ => false

end

/-- Keyed lookup in a dict, Python `d[k]` / `d.get(k)` without its
default: the value of the first (in a well-formed dict, only) binding
of `k`. -/
def olookup : Obj → String → Option Val
  | [], _ => none
  | (k', v) :: rest, k => if k' == k then some v else olookup rest k

/-- Python `d.get(k)` (default `None`). -/
def oget (o : Obj) (k : String) : Val := (olookup o k).getD .null

/-- Python `d.get(k, d0)` on a dict that is statically known to be one. -/
def ogetD (o : Obj) (k : String) (d0 : Val) : Val := (olookup o k).getD d0

/-- Python `k in d`. -/
def hasKey (o : Obj) (k : String) : Bool := (olookup o k).isSome

/-- `d[k] = v` on a dict: replace the first binding of `k`, or append. -/
def oset : Obj → String → Val → Obj
  | [], k, v => [(k, v)]
  | (k', v') :: rest, k, v =>
    if k' == k then (k, v) :: rest else (k', v') :: oset rest k v

/-- An exception: `valueError msg` is a `ValueError` (the only kind the
handler catches by name), `exc` is any other exception. -/
inductive PyErr where
  | valueError (msg : String) : PyErr
  | exc : PyErr

/-- Python `a.get(k, d0)` on a value of unknown type: raises
(`AttributeError`) unless `a` is a dict. -/
def pyGetD (v : Val) (k : String) (d0 : Val) : Except PyErr Val :=
  match v with
  | .obj fs => .ok (ogetD fs k d0)
  | _ => .error .exc

/-! ### `json.loads` / `json.dumps`

A strict JSON reader matching CPython's default `json.loads` (JSON
whitespace only, no trailing data, last duplicate object key wins,
`NaN` / `Infinity` / `-Infinity` accepted), written over `List Char`
with a character-count fuel. -/

/-- The double-quote character. -/
def quoteC : Char := Char.ofNat 34

/-- The opening-brace character. -/
def lbraceC : Char := Char.ofNat 123

/-- The closing-brace character. -/
def rbraceC : Char := Char.ofNat 125

/-- JSON whitespace (the only characters `json.loads` skips). -/
def isJsonWs (c : Char) : Bool := c = ' ' || c = '\t' || c = '\n' || c = '\r'

/-- Drop leading JSON whitespace. -/
def skipWs : List Char → List Char
  | c :: cs => if isJsonWs c then skipWs cs else c :: cs
  | [] => []

/-- Value of a hex digit (both cases), as in `\uXXXX` escapes. -/
def hexVal (c : Char) : Option Nat :=
  let n := c.toNat
  if 48 ≤ n && n ≤ 57 then some (n - 48)
  else if 97 ≤ n && n ≤ 102 then some (n - 87)
  else if 65 ≤ n && n ≤ 70 then some (n - 55)
  else none

/-- Four hex digits as a code unit. -/
def hex4 (a b c d : Char) : Option Nat := do
  let x ← hexVal a
  let y ← hexVal b
  let z ← hexVal c
  let w ← hexVal d
  pure (((x * 16 + y) * 16 + z) * 16 + w)

/-- Greedily take decimal digits, returning their values and the rest. -/
def takeDigits : List Char → List Nat × List Char
  | c :: cs =>
    if 48 ≤ c.toNat && c.toNat ≤ 57 then
      let (ds, rest) := takeDigits cs
      ((c.toNat - 48) :: ds, rest)
    else ([], c :: cs)
  | [] => ([], [])

/-- A digit list as a natural number. -/
def natOfDigits (ds : List Nat) : Nat := ds.foldl (fun a d => a * 10 + d) 0

/-- Parse the body of a JSON string after the opening quote. A lone
surrogate in a `\u` escape (which Python keeps as a lone surrogate code
unit) is replaced by U+FFFD, since Lean characters are scalar values;
no claim depends on this corner. -/
def parseStringAux : Nat → List Char → Option (String × List Char)
  | 0, _ => none
  | _, [] => none
  | fuel + 1, c :: cs =>
    if c = quoteC then some ("", cs)
    else if c = '\\' then
      match cs with
      | [] => none
      | e :: cs2 =>
        let esc : Option (Char × List Char) :=
          if e = quoteC then some (quoteC, cs2)
          else if e = '\\' then some ('\\', cs2)
          else if e = '/' then some ('/', cs2)
          else if e = 'b' then some (Char.ofNat 8, cs2)
          else if e = 'f' then some (Char.ofNat 12, cs2)
          else if e = 'n' then some ('\n', cs2)
          else if e = 'r' then some ('\r', cs2)
          else if e = 't' then some ('\t', cs2)
          else if e = 'u' then
            match cs2 with
            | h1 :: h2 :: h3 :: h4 :: cs3 =>
              match hex4 h1 h2 h3 h4 with
              | none => none
              | some n =>
                if 55296 ≤ n && n ≤ 56319 then
                  match cs3 with
                  | b1 :: b2 :: g1 :: g2 :: g3 :: g4 :: cs4 =>
                    if b1 = '\\' && b2 = 'u' then
                      match hex4 g1 g2 g3 g4 with
                      | some n2 =>
                        if 56320 ≤ n2 && n2 ≤ 57343 then
                          some (Char.ofNat (65536 + (n - 55296) * 1024 + (n2 - 56320)), cs4)
                        else some (Char.ofNat 65533, cs3)
                      | none => some (Char.ofNat 65533, cs3)
                    else some (Char.ofNat 65533, cs3)
                  | _ => some (Char.ofNat 65533, cs3)
                else if 56320 ≤ n && n ≤ 57343 then some (Char.ofNat 65533, cs3)
                else some (Char.ofNat n, cs3)
            | _ => none
          else none
        match esc with
        | some (ch, rest) =>
          match parseStringAux fuel rest with
          | some (s, r) => some (String.singleton ch ++ s, r)
          | none => none
        | none => none
    else if c.toNat < 32 then none
    else
      match parseStringAux fuel cs with
      | some (s, r) => some (String.singleton c ++ s, r)
      | none => none

/-- Parse a JSON number (strict grammar: optional minus, `0` or a
nonzero-led digit run, optional fraction, optional exponent), as an
exact decimal `Val.num mantissa exp10`. -/
def parseNumber (cs : List Char) : Option (Val × List Char) :=
  let (neg, cs1) : Bool × List Char :=
    match cs with
    | c :: rest => if c = '-' then (true, rest) else (false, cs)
    | [] => (false, cs)
  match takeDigits cs1 with
  | ([], _) => none
  | (d :: ds, cs2) =>
    if d = 0 && ds ≠ [] then none
    else
      let intVal : Nat := natOfDigits (d :: ds)
      let (mant1, exp1, cs3) : Nat × Int × List Char :=
        match cs2 with
        | '.' :: cs2' =>
          match takeDigits cs2' with
          | ([], _) => (intVal, 0, cs2)
          | (fds, cs2'') =>
            (intVal * 10 ^ fds.length + natOfDigits fds, -(fds.length : Int), cs2'')
        | _ => (intVal, 0, cs2)
      if cs3 ≠ cs2 || (match cs2 with | '.' :: _ => false | _ => true) then
        let (expAdj, cs4) : Option Int × List Char :=
          match cs3 with
          | e :: cs3' =>
            if e = 'e' || e = 'E' then
              let (esign, cs3'') : Int × List Char :=
                match cs3' with
                | s :: rest =>
                  if s = '+' then (1, rest)
                  else if s = '-' then (-1, rest)
                  else (1, cs3')
                | [] => (1, cs3')
              match takeDigits cs3'' with
              | ([], _) => (none, cs3)
              | (eds, cs5) => (some (esign * (natOfDigits eds : Int)), cs5)
            else (some 0, cs3)
          | [] => (some 0, cs3)
        match expAdj with
        | none => none
        | some ea =>
          let mantI : Int := if neg then -(mant1 : Int) else (mant1 : Int)
          some (.num mantI (exp1 + ea), cs4)
      else none

mutual

/-- Parse one JSON value, as CPython's `json.loads` does.  The fuel is
a character-count bound; `jsonLoads` supplies enough for any input. -/
def parseVal : Nat → List Char → Option (Val × List Char)
  | 0, _ => none
  | fuel + 1, cs0 =>
    match skipWs cs0 with
    | [] => none
    | 'n' :: 'u' :: 'l' :: 'l' :: r => some (.null, r)
    | 't' :: 'r' :: 'u' :: 'e' :: r => some (.bool true, r)
    | 'f' :: 'a' :: 'l' :: 's' :: 'e' :: r => some (.bool false, r)
    | 'N' :: 'a' :: 'N' :: r => some (.nanV, r)
    | 'I' :: 'n' :: 'f' :: 'i' :: 'n' :: 'i' :: 't' :: 'y' :: r => some (.infV false, r)
    | '-' :: 'I' :: 'n' :: 'f' :: 'i' :: 'n' :: 'i' :: 't' :: 'y' :: r => some (.infV true, r)
    | c :: r =>
      if c = quoteC then
        match parseStringAux (r.length + 1) r with
        | some (s, rest) => some (.str s, rest)
        | none => none
      else if c = lbraceC then
        match skipWs r with
        | c2 :: r2 => if c2 = rbraceC then some (.obj [], r2) else parseMembers fuel [] r
        | [] => none
      else if c = '[' then
        match skipWs r with
        | c2 :: r2 => if c2 = ']' then some (.arr [], r2) else parseElems fuel [] r
        | [] => none
      else parseNumber (c :: r)

/-- Parse the members of a JSON object after its opening brace (the
nonempty case); a duplicated key keeps its first position with the last
value, as a Python dict does. -/
def parseMembers : Nat → Obj → List Char → Option (Val × List Char)
  | 0, _, _ => none
  | fuel + 1, acc, cs =>
    match skipWs cs with
    | [] => none
    | c :: r =>
      if c = quoteC then
        match parseStringAux (r.length + 1) r with
        | none => none
        | some (k, r2) =>
          match skipWs r2 with
          | [] => none
          | c2 :: r3 =>
            if c2 = ':' then
              match parseVal fuel r3 with
              | none => none
              | some (v, r4) =>
                match skipWs r4 with
                | [] => none
                | c3 :: r5 =>
                  if c3 = ',' then parseMembers fuel (oset acc k v) r5
                  else if c3 = rbraceC then some (.obj (oset acc k v), r5)
                  else none
            else none
      else none

/-- Parse the elements of a JSON array after its opening bracket (the
nonempty case). -/
def parseElems : Nat → List Val → List Char → Option (Val × List Char)
  | 0, _, _ => none
  | fuel + 1, acc, cs =>
    match parseVal fuel cs with
    | none => none
    | some (v, r) =>
      match skipWs r with
      | [] => none
      | c :: r2 =>
        if c = ',' then parseElems fuel (acc ++ [v]) r2
        else if c = ']' then some (.arr (acc ++ [v]), r2)
        else none

end

/-- `json.loads`: parse a complete JSON document, rejecting trailing
data. `none` models a `json.JSONDecodeError`. -/
def jsonLoads (s : String) : Option Val :=
  match parseVal (s.length + 1) s.data with
  | some (v, rest) => if skipWs rest = [] then some v else none
  | none => none

/-- One character of `json.dumps` string-escaping (`ensure_ascii=False`:
only the quote, the backslash and control characters are escaped). -/
def escapeChar (c : Char) : String :=
  if c = quoteC then "\\\""
  else if c = '\\' then "\\\\"
  else if c = '\n' then "\\n"
  else if c = '\r' then "\\r"
  else if c = '\t' then "\\t"
  else if c.toNat = 8 then "\\b"
  else if c.toNat = 12 then "\\f"
  else if c.toNat < 32 then
    "\\u00" ++ String.singleton (if c.toNat / 16 < 10 then Char.ofNat (48 + c.toNat / 16) else Char.ofNat (87 + c.toNat / 16))
      ++ String.singleton (if c.toNat % 16 < 10 then Char.ofNat (48 + c.toNat % 16) else Char.ofNat (87 + c.toNat % 16))
  else String.singleton c

/-- `json.dumps` string-escaping over a whole string. -/
def escapeString (s : String) : String := String.join (s.data.map escapeChar)

/-- Decimal text of a number value. Faithful to Python for integers
(the only numbers the handler itself ever serializes); a non-integer
mantissa/exponent is rendered in exponent notation, which differs from
CPython's float `repr` — unreachable from any claim. -/
def numRepr (m e : Int) : String :=
  if e = 0 then toString m else toString m ++ "e" ++ toString e

mutual

/-- `json.dumps(v, ensure_ascii=False)` with CPython's default
separators (`", "` and `": "`). -/
def dumps : Val → String
  | .null => "null"
  | .bool true => "true"
  | .bool false => "false"
  | .num m e => numRepr m e
  | .nanV => "NaN"
  | .infV false => "Infinity"
  | .infV true => "-Infinity"
  | .str s => "\"" ++ escapeString s ++ "\""
  | .arr xs => "[" ++ dumpsElems xs ++ "]"
  | .obj fs => String.singleton lbraceC ++ dumpsFields fs ++ String.singleton rbraceC

/-- Array elements, `", "`-separated. -/
def dumpsElems : List Val → String
  | [] => ""
  | [x] => dumps x
  | x :: y :: xs => dumps x ++ ", " ++ dumpsElems (y :: xs)

/-- Object members, `", "`-separated with `": "` after each key. -/
def dumpsFields : List (String × Val) → String
  | [] => ""
  | [(k, v)] => "\"" ++ escapeString k ++ "\": " ++ dumps v
  | (k, v) :: p :: fs =>
    "\"" ++ escapeString k ++ "\": " ++ dumps v ++ ", " ++ dumpsFields (p :: fs)

end

/-! ### The program's configuration, helpers and handler -/

/-- `os.getenv("TABLE_NAME", "Items")`: the configured name of the
backing collection, default `"Items"`. -/
def TABLE_NAME (envTableName : Option String) : String :=
  envTableName.getD "Items"

/-- The fixed CORS/content-type header set attached to every response. -/
def CORS_HEADERS : List (String × String) :=
  [("Access-Control-Allow-Origin", "*"),
   ("Access-Control-Allow-Methods", "GET,POST,PUT,DELETE,OPTIONS"),
   ("Access-Control-Allow-Headers", "Content-Type,Authorization"),
   ("Content-Type", "application/json")]

/-- Python `str.upper()` (ASCII case mapping; every routing token in
the program is ASCII). -/
def pyUpper (s : String) : String := ⟨s.data.map Char.toUpper⟩

/-- Python `str.lower()` (ASCII case mapping). -/
def pyLower (s : String) : String := ⟨s.data.map Char.toLower⟩

/-- Python `str.split(sep)` for a one-character separator, over the
character list: consecutive separators produce empty fields and the
empty string yields `[""]`, as in Python. -/
def splitChar (sep : Char) : List Char → List String
  | [] => [""]
  | c :: cs =>
    let rest := splitChar sep cs
    if c = sep then "" :: rest
    else
      match rest with
      | f :: fs => (String.singleton c ++ f) :: fs
      | [] => [String.singleton c]

/-- Python `path.split("/")`. -/
def pySplitSlash (s : String) : List String := splitChar '/' s.data

/-- The response envelope returned to the gateway.  `body` is a `Val`
because Python would pass a non-string body value through unchanged;
every body the handler actually builds is a string (`Val.str`). -/
structure Response where
  statusCode : Nat
  headers : List (String × String)
  body : Val

/-- `_response(status, body)`: JSON-encode a dict or list body, map
`None` to the empty string, pass anything else through, and attach the
fixed headers. -/
def _response (status : Nat) (body : Val) : Response :=
  { statusCode := status
    headers := CORS_HEADERS
    body :=
      match body with
      | .obj fs => .str (dumps (.obj fs))
      | .arr xs => .str (dumps (.arr xs))
      | .null => .str ""
      | b => b }

/-- The path-segment fallback of `_parse_event`: split the path on
`/`, drop empty segments, and when there are at least two segments and
the first one lowercases to the literal `"items"`, join the rest with
`/`; otherwise keep the (falsy) explicit binding `itemId0`. -/
def pathFallbackId (ps : String) (itemId0 : Val) : Val :=
  let segments := (pySplitSlash ps).filter (fun s => s ≠ "")
  match segments with
  | s0 :: s1 :: rest =>
    if pyLower s0 = "items" then .str (String.intercalate "/" (s1 :: rest))
    else itemId0
  | _ => itemId0

/-- `_parse_event(event)`: extract `(method, path, item_id, body)` from
the event envelope.  The four components keep their Python dynamism:
`method` is a genuine string (a non-string method value makes
`.upper()` raise, modelled by `PyErr.exc`), the others are `Val`s.
String `upper`/`lower` are ASCII here (Python's are Unicode-aware; all
routing tokens are ASCII). -/
def _parse_event (event : Obj) : Except PyErr (String × Val × Val × Val) :=
  let m1 := oget event "httpMethod"
  let methodRes : Except PyErr Val :=
    if m1.truthy then .ok m1
    else
      match pyGetD (ogetD event "requestContext" (.obj [])) "http" (.obj []) with
      | .error e => .error e
      | .ok http =>
        match pyGetD http "method" .null with
        | .error e => .error e
        | .ok m2 => .ok (if m2.truthy then m2 else .str "")
  match methodRes with
  | .error e => .error e
  | .ok methodV =>
    match methodV with
    | .str mRaw =>
      let method := pyUpper mRaw
      let p1 := oget event "path"
      let pathV :=
        if p1.truthy then p1
        else
          let p2 := oget event "rawPath"
          if p2.truthy then p2 else .str "/"
      let pp0 := oget event "pathParameters"
      let pathParams := if pp0.truthy then pp0 else .obj []
      match pyGetD pathParams "id" .null with
      | .error e => .error e
      | .ok itemId0 =>
        let itemIdRes : Except PyErr Val :=
          if itemId0.truthy then .ok itemId0
          else
            match pathV with
            | .str ps => .ok (pathFallbackId ps itemId0)
            | _ => .error .exc
        match itemIdRes with
        | .error e => .error e
        | .ok itemId =>
          let rb := oget event "body"
          let rawBody := if rb.truthy then rb else .str "\x7b\x7d"
          match rawBody with
          | .str s =>
            match jsonLoads s with
            | some v => .ok (method, pathV, itemId, v)
            | none => .error (.valueError "Invalid JSON in request body")
          | v => .ok (method, pathV, itemId, if v.truthy then v else .obj [])
    | _ => .error .exc

/-- The required create fields, in declaration order. -/
def requiredFields : List String := ["id", "description", "date"]

/-- `_validate_item_payload(payload)`: `none` means valid; otherwise the
missing-fields message (comma-joined, declaration order) or, only when
nothing is missing, the first wrong-type message. -/
def _validate_item_payload (payload : Obj) : Option String :=
  let missing := requiredFields.filter (fun k => !hasKey payload k)
  if !missing.isEmpty then
    some ("必須項目不足: " ++ String.intercalate ", " missing)
  else
    match requiredFields.find? (fun k => !(oget payload k).isStr) with
    | some k => some ("'" ++ k ++ "' は文字列である必要があります")
    | none => none

/-- Modelled from the spec: the external key-value store (§6), a map
from key values to attribute maps.  The store itself is outside
`src/`; only its client calls appear in the source. -/
abbrev DB := List (Val × Obj)

/-- Modelled from the spec: `getByKey(id) → item | absent`. -/
def dbGet : DB → Val → Option Obj
  | [], _ => none
  | (k', item) :: rest, k => if Val.beq k' k then some item else dbGet rest k

/-- Modelled from the spec: `put(item)` — full replace/insert by key
(the key is the item's `id` attribute). -/
def dbPut : DB → Val → Obj → DB
  | [], k, item => [(k, item)]
  | (k', item') :: rest, k, item =>
    if Val.beq k' k then (k, item) :: rest else (k', item') :: dbPut rest k item

/-- Modelled from the spec: `updateFields(id, `\x7b`description, date`\x7d`)` —
partial attribute update; on a missing key the store (DynamoDB
`update_item`) creates the item from the key and the set attributes. -/
def dbUpdate : DB → Val → Val → Val → DB
  | [], k, d, t => [(k, [("id", k), ("description", d), ("date", t)])]
  | (k', item) :: rest, k, d, t =>
    if Val.beq k' k then (k', oset (oset item "description" d) "date" t) :: rest
    else (k', item) :: dbUpdate rest k d t

/-- Modelled from the spec: `deleteByKey(id)`, a no-op on a missing key. -/
def dbDelete : DB → Val → DB
  | [], _ => []
  | (k', item) :: rest, k => if Val.beq k' k then rest else (k', item) :: dbDelete rest k

/-- Modelled from the spec: the outcome of the (single) store call an
invocation makes.  `clientError` is a `ClientError`/`BotoCoreError`,
caught at the call site; `fatal` is any other exception from the call,
which reaches the outermost boundary. -/
inductive StoreOutcome where
  | ok : StoreOutcome
  | clientError : StoreOutcome
  | fatal : StoreOutcome

/-- The generic internal-error body. -/
def msgInternal : Val := .obj [("message", .str "internal error")]

/-- The body of `lambda_handler`'s `try` block.  The `logger.info`
call's `list(body.keys())` argument is evaluated eagerly, so a body
that is not a dict raises before any dispatch (`PyErr.exc`). -/
def lambda_handler_core (event : Obj) (db : DB) (so : StoreOutcome) :
    Except PyErr (Response × DB) :=
  match _parse_event event with
  | .error e => .error e
  | .ok (method, _path, itemId, bodyV) =>
    match bodyV with
    | .obj body =>
      if method = "OPTIONS" then .ok (_response 204 (.str ""), db)
      else if method = "GET" then
        if itemId.truthy then
          match so with
          | .clientError => .ok (_response 500 msgInternal, db)
          | .fatal => .error .exc
          | .ok =>
            match dbGet db itemId with
            | some item =>
              if (Val.obj item).truthy then .ok (_response 200 (.obj item), db)
              else .ok (_response 404 (.obj [("message", .str "not found")]), db)
            | none => .ok (_response 404 (.obj [("message", .str "not found")]), db)
        else
          match so with
          | .clientError => .ok (_response 500 msgInternal, db)
          | .fatal => .error .exc
          | .ok => .ok (_response 200 (.arr (db.map (fun p => Val.obj p.2))), db)
      else if method = "POST" then
        if itemId.truthy then
          .ok (_response 400 (.obj [("message", .str "POST ではパスに id を含めないでください")]), db)
        else
          match _validate_item_payload body with
          | some err => .ok (_response 400 (.obj [("message", .str err)]), db)
          | none =>
            match so with
            | .clientError => .ok (_response 500 msgInternal, db)
            | .fatal => .error .exc
            | .ok =>
              .ok (_response 201 (.obj [("message", .str "created")]),
                   dbPut db (oget body "id") body)
      else if method = "PUT" then
        if !itemId.truthy then .ok (_response 400 (.obj [("message", .str "id が必要です")]), db)
        else
          match so with
          | .clientError => .ok (_response 500 msgInternal, db)
          | .fatal => .error .exc
          | .ok =>
            .ok (_response 200 (.obj [("message", .str "updated")]),
                 dbUpdate db itemId (oget body "description") (oget body "date"))
      else if method = "DELETE" then
        if !(if itemId.truthy then itemId else oget body "id").truthy then
          .ok (_response 400 (.obj [("message", .str "id 必須")]), db)
        else
          match so with
          | .clientError => .ok (_response 500 msgInternal, db)
          | .fatal => .error .exc
          | .ok =>
            .ok (_response 200 (.obj [("message", .str "deleted")]),
                 dbDelete db (if itemId.truthy then itemId else oget body "id"))
      else .ok (_response 405 (.obj [("message", .str "unsupported")]), db)
    | _ => .error .exc

/-- `lambda_handler(event, context)`: the `try` block plus the two
outer handlers — `except ValueError` becomes a 400 with the error's
message, `except Exception` becomes the generic 500. -/
def lambda_handler (event : Obj) (db : DB) (so : StoreOutcome) : Response × DB :=
  match lambda_handler_core event db so with
  | .ok r => r
  | .error (.valueError m) => (_response 400 (.obj [("message", .str m)]), db)
  | .error .exc => (_response 500 msgInternal, db)

/-- Following the spec's words (§4.1 step (b) together with §6's
requirement that path parsing match the configured collection name
case-insensitively): the identifier the path-segment fallback should
resolve for a given configured collection name and path. -/
def spec_resolveId (collectionName : String) (path : String) : Option String :=
  match (pySplitSlash path).filter (fun s => s ≠ "") with
  | s0 :: s1 :: rest =>
    if pyLower s0 = pyLower collectionName then some (String.intercalate "/" (s1 :: rest))
    else none
  | _ => none

/-! ### Canonical event shapes used by the claims -/

/-- A legacy-shape POST to the collection (no path identifier). -/
def postEvent (payload : Obj) : Obj :=
  [("httpMethod", .str "POST"), ("path", .str "/Items"), ("body", .obj payload)]

/-- A legacy-shape GET with an explicit `id` path-parameter binding. -/
def getEvent (idv : String) : Obj :=
  [("httpMethod", .str "GET"), ("pathParameters", .obj [("id", .str idv)])]

/-- A legacy-shape PUT with an explicit `id` path-parameter binding. -/
def putEvent (idv : String) (payload : Obj) : Obj :=
  [("httpMethod", .str "PUT"), ("pathParameters", .obj [("id", .str idv)]),
   ("body", .obj payload)]

/-- A legacy-shape DELETE whose `id` path-parameter binding carries an
arbitrary value (possibly `null`/absent-like) and whose body is a dict. -/
def deleteEvent (iid : Val) (payload : Obj) : Obj :=
  [("httpMethod", .str "DELETE"), ("pathParameters", .obj [("id", iid)]),
   ("body", .obj payload)]

/-- A well-formed response of this handler: the fixed header set, a
status code from the handler's repertoire, and — whenever the status is
an error status — a body that is the JSON encoding of a mapping with a
single string `message` field. -/
def goodResp (r : Response) : Prop :=
  r.headers = CORS_HEADERS ∧
  r.statusCode ∈ [200, 201, 204, 400, 404, 405, 500] ∧
  (400 ≤ r.statusCode → ∃ m, r.body = .str (dumps (.obj [("message", .str m)])))

/-! ### Basic lemmas -/

theorem Val.beq_str_self (s : String) : Val.beq (.str s) (.str s) = true := by
  simp [Val.beq]

theorem Val.beq_eq_str (v : Val) (s : String) (h : Val.beq v (.str s) = true) :
    v = .str s := by
  cases v <;> simp [Val.beq] at h
  simp [h]

theorem oget_some (o : Obj) (k : String) (v : Val) (h : oget o k = v) (hv : v ≠ .null) :
    olookup o k = some v := by
  unfold oget at h
  cases h' : olookup o k with
  | none => rw [h'] at h; simp [Option.getD] at h; exact absurd h.symm hv
  | some w => rw [h'] at h; simp [Option.getD] at h; rw [h]

theorem oget_nonnil (o : Obj) (k : String) (v : Val) (h : oget o k = v) (hv : v ≠ .null) :
    o ≠ [] := by
  intro he
  subst he
  simp [oget, olookup, Option.getD] at h
  exact hv h.symm

theorem olookup_oset_self (o : Obj) (k : String) (v : Val) :
    olookup (oset o k v) k = some v := by
  induction o with
  | nil => simp [oset, olookup]
  | cons p rest ih =>
    obtain ⟨k', v'⟩ := p
    by_cases h : k' = k
    · simp [oset, olookup, h]
    · have hb : (k' == k) = false := by simp [h]
      simp [oset, olookup, hb, ih]

theorem olookup_oset_other (o : Obj) (k : String) (v : Val) (k' : String) (h : k' ≠ k) :
    olookup (oset o k v) k' = olookup o k' := by
  have hkk : (k == k') = false := by simp [Ne.symm h]
  induction o with
  | nil => simp [oset, olookup, hkk]
  | cons p rest ih =>
    obtain ⟨k0, v0⟩ := p
    by_cases h0 : k0 = k
    · subst h0
      simp [oset, olookup, hkk]
    · have hb : (k0 == k) = false := by simp [h0]
      simp [oset, olookup, hb, ih]

theorem dbGet_dbPut_self (db : DB) (k : Val) (item : Obj) (hk : Val.beq k k = true) :
    dbGet (dbPut db k item) k = some item := by
  induction db with
  | nil => simp [dbPut, dbGet, hk]
  | cons p rest ih =>
    obtain ⟨k', item'⟩ := p
    by_cases h : Val.beq k' k = true
    · simp [dbPut, dbGet, h, hk]
    · have hb : Val.beq k' k = false := by revert h; cases Val.beq k' k <;> simp
      simp [dbPut, dbGet, hb, ih]

theorem dbGet_dbUpdate_found (db : DB) (k d t : Val) (attrs : Obj)
    (h : dbGet db k = some attrs) :
    dbGet (dbUpdate db k d t) k = some (oset (oset attrs "description" d) "date" t) := by
  induction db with
  | nil => simp [dbGet] at h
  | cons p rest ih =>
    obtain ⟨k', item⟩ := p
    by_cases hb : Val.beq k' k = true
    · simp [dbGet, hb] at h
      subst h
      simp [dbUpdate, dbGet, hb]
    · have hb' : Val.beq k' k = false := by revert hb; cases Val.beq k' k <;> simp
      simp [dbGet, hb'] at h
      simp [dbUpdate, dbGet, hb', ih h]

theorem dbGet_dbUpdate_other (db : DB) (idv : String) (d t : Val) (s' : String)
    (h : s' ≠ idv) :
    dbGet (dbUpdate db (.str idv) d t) (.str s') = dbGet db (.str s') := by
  have hss : Val.beq (.str idv) (.str s') = false := by
    simp [Val.beq]; exact Ne.symm h
  induction db with
  | nil => simp [dbUpdate, dbGet, hss]
  | cons p rest ih =>
    obtain ⟨k', item⟩ := p
    by_cases hb : Val.beq k' (.str idv) = true
    · have hk : k' = .str idv := Val.beq_eq_str k' idv hb
      subst hk
      simp [dbUpdate, dbGet, hb, hss]
    · have hb' : Val.beq k' (.str idv) = false := by revert hb; cases Val.beq k' (.str idv) <;> simp
      simp [dbUpdate, dbGet, hb', ih]

theorem validate_none_of (payload : Obj) (i dsc dt : String)
    (hid : oget payload "id" = .str i)
    (hdesc : oget payload "description" = .str dsc)
    (hdate : oget payload "date" = .str dt) :
    _validate_item_payload payload = none := by
  have h1 := oget_some payload "id" (.str i) hid (by simp)
  have h2 := oget_some payload "description" (.str dsc) hdesc (by simp)
  have h3 := oget_some payload "date" (.str dt) hdate (by simp)
  simp [_validate_item_payload, requiredFields, hasKey, h1, h2, h3, List.filter,
    List.find?, hid, hdesc, hdate, Val.isStr]

/-! ### Parsing the canonical events -/

theorem parse_postEvent (payload : Obj) (hp : payload ≠ []) :
    _parse_event (postEvent payload) = .ok ("POST", .str "/Items", .null, .obj payload) := by
  cases payload with
  | nil => exact absurd rfl hp
  | cons p ps => rfl

theorem parse_getEvent (idv : String) (h : idv ≠ "") :
    _parse_event (getEvent idv) = .ok ("GET", .str "/", .str idv, .obj []) := by
  obtain ⟨data⟩ := idv
  cases data with
  | nil => exact absurd rfl h
  | cons c cs => rfl

/-! ### Claim theorems -/

/-- **C1.** The claim says an explicit JSON `null` body normalizes to an
empty mapping and behaves like a missing body.  The code violates it:
`json.loads("null")` is `None`, `_parse_event` returns that `None`
payload (contradicting its own `Dict[str, Any]` annotation and its
"JSON or empty object" comment), and the handler's eager
`list(body.keys())` then raises, so a GET with body `"null"` answers
500 while the same GET with no body answers 200 with the scan result. -/
theorem C1_null_body_is_not_normalized :
    _parse_event [("httpMethod", .str "GET"), ("body", .str "null")] =
      .ok ("GET", .str "/", .null, .null) ∧
    lambda_handler [("httpMethod", .str "GET"), ("body", .str "null")] [] .ok =
      (_response 500 msgInternal, []) ∧
    lambda_handler [("httpMethod", .str "GET")] [] .ok =
      (_response 200 (.arr []), []) :=
  ⟨rfl, rfl, rfl⟩

/-- **C2.** Create-then-get round-trip: for any payload carrying string
`id`, `description` and `date` (the `id` nonempty so that a GET can
address it), a POST with no path identifier answers 201 and stores the
payload, and a GET for that id against the resulting store answers 200
with exactly the stored item, whose three fields are the input values. -/
theorem C2_create_then_get_roundtrip (payload : Obj) (idv dv tv : String)
    (hid : oget payload "id" = .str idv)
    (hdesc : oget payload "description" = .str dv)
    (hdate : oget payload "date" = .str tv)
    (hne : idv ≠ "") (db : DB) :
    lambda_handler (postEvent payload) db .ok =
      (_response 201 (.obj [("message", .str "created")]), dbPut db (.str idv) payload) ∧
    lambda_handler (getEvent idv) (dbPut db (.str idv) payload) .ok =
      (_response 200 (.obj payload), dbPut db (.str idv) payload) := by
  have hp : payload ≠ [] := oget_nonnil payload "id" (.str idv) hid (by simp)
  have hval := validate_none_of payload idv dv tv hid hdesc hdate
  have htr : Val.truthy (.str idv) = true := by simp [Val.truthy, hne]
  constructor
  · simp [lambda_handler, lambda_handler_core, parse_postEvent payload hp, Val.truthy,
      hval, hid]
  · have hget := dbGet_dbPut_self db (.str idv) payload (Val.beq_str_self idv)
    have hobj : Val.truthy (.obj payload) = true := by
      cases payload with
      | nil => exact absurd rfl hp
      | cons p ps => simp [Val.truthy]
    simp [lambda_handler, lambda_handler_core, parse_getEvent idv hne, htr, hget, hobj]

/-- **C2 witness.** The round-trip at a concrete payload. -/
theorem C2_create_then_get_roundtrip_witness :
    lambda_handler
        (postEvent [("id", Val.str "a1"), ("description", Val.str "buy milk"),
          ("date", Val.str "2024-01-01")]) [] .ok =
      (_response 201 (.obj [("message", .str "created")]),
       dbPut [] (.str "a1")
         [("id", Val.str "a1"), ("description", Val.str "buy milk"),
          ("date", Val.str "2024-01-01")]) ∧
    lambda_handler (getEvent "a1")
        (dbPut [] (.str "a1")
          [("id", Val.str "a1"), ("description", Val.str "buy milk"),
           ("date", Val.str "2024-01-01")]) .ok =
      (_response 200 (.obj [("id", Val.str "a1"), ("description", Val.str "buy milk"),
          ("date", Val.str "2024-01-01")]),
       dbPut [] (.str "a1")
         [("id", Val.str "a1"), ("description", Val.str "buy milk"),
          ("date", Val.str "2024-01-01")]) :=
  C2_create_then_get_roundtrip
    [("id", Val.str "a1"), ("description", Val.str "buy milk"),
     ("date", Val.str "2024-01-01")]
    "a1" "buy milk" "2024-01-01" rfl rfl rfl (by decide) []

/-- **C5.** Validation computes the missing required fields in
declaration order first: if any are missing it reports exactly them,
comma-separated, in that order, with no type check; only with none
missing does it report the first field (in declaration order) whose
value is not a string; and a POST whose payload fails validation
answers 400 with exactly the validation message, leaving the store
untouched whatever the store would have done. -/
theorem C5_validation_short_circuits (payload : Obj) (db : DB) (so : StoreOutcome) :
    (requiredFields.filter (fun k => !hasKey payload k) ≠ [] →
      _validate_item_payload payload =
        some ("必須項目不足: " ++
          String.intercalate ", " (requiredFields.filter (fun k => !hasKey payload k)))) ∧
    (requiredFields.filter (fun k => !hasKey payload k) = [] →
      _validate_item_payload payload =
        (requiredFields.find? (fun k => !(oget payload k).isStr)).map
          (fun k => "\u0027" ++ k ++ "\u0027 は文字列である必要があります")) ∧
    (∀ m, _validate_item_payload payload = some m →
      lambda_handler (postEvent payload) db so =
        (_response 400 (.obj [("message", .str m)]), db)) := by
  refine ⟨?_, ?_, ?_⟩
  · intro h
    simp [_validate_item_payload, h]
  · intro h
    simp [_validate_item_payload, h]
    cases List.find? (fun k => !(oget payload k).isStr) requiredFields <;> rfl
  · intro m hm
    cases payload with
    | nil =>
      have hv : _validate_item_payload [] =
          some "必須項目不足: id, description, date" := rfl
      rw [hv] at hm
      cases hm
      rfl
    | cons p ps =>
      simp [lambda_handler, lambda_handler_core,
        parse_postEvent (p :: ps) (by simp), Val.truthy, hm]

/-- **C5 witness.** A payload missing `description` and `date` (and a
wrong-typed `id`, which must not be reported): the missing-fields
message wins and the POST answers 400 with it. -/
theorem C5_validation_short_circuits_witness :
    _validate_item_payload [("id", Val.num 3 0)] =
      some "必須項目不足: description, date" ∧
    lambda_handler (postEvent [("id", Val.num 3 0)]) [] .ok =
      (_response 400 (.obj [("message", .str "必須項目不足: description, date")]), []) := by
  have h := C5_validation_short_circuits [("id", Val.num 3 0)] [] .ok
  have h1 := h.1 (by decide)
  have h2 := h.2.2 "必須項目不足: description, date"
  exact ⟨by simpa using h1, h2 (by simpa using h1)⟩

/-- The code's path-segment fallback coincides with the spec's rule
instantiated at the fixed literal collection name `"Items"` (not at the
configured name). -/
theorem pathFallbackId_eq_spec_items (ps : String) :
    pathFallbackId ps .null =
      (match spec_resolveId "Items" ps with
       | some i => Val.str i
       | none => Val.null) := by
  have hl : pyLower "Items" = "items" := rfl
  simp only [pathFallbackId, spec_resolveId, hl]
  cases hseg : (pySplitSlash ps).filter (fun s => s ≠ "") with
  | nil => rfl
  | cons s0 t =>
    cases t with
    | nil => rfl
    | cons s1 rest =>
      by_cases hc : pyLower s0 = "items"
      · simp [hc]
      · simp [hc]

/-- **C3 counterexample.** With the configured collection name
`"Todos"` (`TABLE_NAME` overridden), the spec's rule resolves `"a1"`
from the path `/Todos/a1`, but the code resolves no identifier: the
comparison is against the literal `"items"`, not the configured name. -/
theorem C3_configured_name_counterexample :
    TABLE_NAME (some "Todos") = "Todos" ∧
    spec_resolveId (TABLE_NAME (some "Todos")) "/Todos/a1" = some "a1" ∧
    _parse_event [("httpMethod", .str "GET"), ("path", .str "/Todos/a1")] =
      .ok ("GET", .str "/Todos/a1", .null, .obj []) :=
  ⟨rfl, rfl, rfl⟩

/-- **C3 (amended).** For a request without an explicit `id` binding
and with a nonempty path string, the fallback resolves exactly what the
spec's rule prescribes for the fixed default collection name
`"Items"` — regardless of the configured `TABLE_NAME`. -/
theorem C3_path_fallback_matches_default_name (p : String) (hp : p ≠ "") :
    _parse_event [("httpMethod", .str "GET"), ("path", .str p)] =
      .ok ("GET", .str p,
        (match spec_resolveId "Items" p with
         | some i => Val.str i
         | none => Val.null),
        .obj []) := by
  obtain ⟨pd⟩ := p
  cases pd with
  | nil => exact absurd rfl hp
  | cons c cs =>
    have key : _parse_event [("httpMethod", .str "GET"), ("path", .str ⟨c :: cs⟩)] =
        .ok ("GET", .str ⟨c :: cs⟩, pathFallbackId ⟨c :: cs⟩ .null, .obj []) := rfl
    rw [key, pathFallbackId_eq_spec_items]

/-- **C3 amended witness.** A nested path under `/Items` resolves the
joined remaining segments. -/
theorem C3_path_fallback_matches_default_name_witness :
    _parse_event [("httpMethod", .str "GET"), ("path", .str "/items/abc/def")] =
      .ok ("GET", .str "/items/abc/def",
        (match spec_resolveId "Items" "/items/abc/def" with
         | some i => Val.str i
         | none => Val.null),
        .obj []) :=
  C3_path_fallback_matches_default_name "/items/abc/def" (by decide)

/-- **C8 counterexample.** An OPTIONS request whose body field is the
JSON string `"null"` does not answer 204: the parsed body is `None`,
the eager `list(body.keys())` raises before the OPTIONS dispatch, and
the request answers 500.  So the 204 outcome does not hold "regardless
of the body field's contents". -/
theorem C8_options_body_counterexample :
    lambda_handler [("httpMethod", .str "OPTIONS"), ("body", .str "null")] [] .ok =
      (_response 500 msgInternal, []) := rfl

/-- **C8 (amended).** For every request that parses with method
`OPTIONS` and a body that normalizes to a mapping (so in particular for
every absent, empty, or JSON-object body), the handler answers 204 with
an empty string body, regardless of path, identifier, store state and
store behavior. -/
theorem C8_options_always_204 (event : Obj) (db : DB) (so : StoreOutcome)
    (pv iv : Val) (payload : Obj)
    (h : _parse_event event = .ok ("OPTIONS", pv, iv, .obj payload)) :
    lambda_handler event db so = (_response 204 (.str ""), db) := by
  simp [lambda_handler, lambda_handler_core, h]

/-- **C8 amended witness.** A bare OPTIONS request answers 204 even
when the store call would have failed fatally (no store call is made). -/
theorem C8_options_always_204_witness :
    lambda_handler [("httpMethod", .str "OPTIONS")] [] .fatal =
      (_response 204 (.str ""), []) :=
  C8_options_always_204 [("httpMethod", .str "OPTIONS")] [] .fatal
    (.str "/") .null [] rfl

/-- Parsing the canonical PUT event: the explicit binding resolves the
identifier and the body dict passes through (an empty dict is falsy, so
it arrives via the `"{}"` default, with the same result). -/
theorem parse_putEvent (idv : String) (payload : Obj) (h : idv ≠ "") :
    _parse_event (putEvent idv payload) = .ok ("PUT", .str "/", .str idv, .obj payload) := by
  obtain ⟨data⟩ := idv
  cases data with
  | nil => exact absurd rfl h
  | cons c cs =>
    cases payload with
    | nil => rfl
    | cons p ps => rfl

/-- **C4.** A PUT with a resolved identifier and a successful store
call answers 200 and the store operation overwrites exactly
`description` and `date` on the item with that id — to the payload's
values, which are `None` (`Val.null`) when omitted — while every other
attribute of that item (in particular `id`) and every other item are
unchanged. -/
theorem C4_put_overwrites_description_date_only (idv : String) (hne : idv ≠ "")
    (payload attrs : Obj) (db : DB)
    (hattrs : dbGet db (.str idv) = some attrs) :
    lambda_handler (putEvent idv payload) db .ok =
      (_response 200 (.obj [("message", .str "updated")]),
       dbUpdate db (.str idv) (oget payload "description") (oget payload "date")) ∧
    dbGet (dbUpdate db (.str idv) (oget payload "description") (oget payload "date"))
        (.str idv) =
      some (oset (oset attrs "description" (oget payload "description")) "date"
        (oget payload "date")) ∧
    olookup (oset (oset attrs "description" (oget payload "description")) "date"
        (oget payload "date")) "description" = some (oget payload "description") ∧
    olookup (oset (oset attrs "description" (oget payload "description")) "date"
        (oget payload "date")) "date" = some (oget payload "date") ∧
    (∀ a, a ≠ "description" → a ≠ "date" →
      olookup (oset (oset attrs "description" (oget payload "description")) "date"
        (oget payload "date")) a = olookup attrs a) ∧
    (∀ s', s' ≠ idv →
      dbGet (dbUpdate db (.str idv) (oget payload "description") (oget payload "date"))
          (.str s') =
        dbGet db (.str s')) := by
  have htr : Val.truthy (.str idv) = true := by simp [Val.truthy, hne]
  refine ⟨?_, ?_, ?_, ?_, ?_, ?_⟩
  · simp [lambda_handler, lambda_handler_core, parse_putEvent idv payload hne, htr]
  · exact dbGet_dbUpdate_found db (.str idv) _ _ attrs hattrs
  · rw [olookup_oset_other _ _ _ _ (by decide), olookup_oset_self]
  · exact olookup_oset_self _ _ _
  · intro a ha1 ha2
    rw [olookup_oset_other _ _ _ _ ha2, olookup_oset_other _ _ _ _ ha1]
  · intro s' hs
    exact dbGet_dbUpdate_other db idv _ _ s' hs

/-- **C4 witness.** Updating item `a1` with a payload that omits
`date`: 200, `description` becomes the payload's value, `date` becomes
`None`, `id` and the extra attribute survive, and item `b2` is
untouched. -/
theorem C4_put_overwrites_description_date_only_witness :
    lambda_handler (putEvent "a1" [("description", Val.str "new")])
        [(Val.str "a1",
          [("id", Val.str "a1"), ("description", Val.str "old"),
           ("date", Val.str "D"), ("extra", Val.num 7 0)]),
         (Val.str "b2", [("id", Val.str "b2")])] .ok =
      (_response 200 (.obj [("message", .str "updated")]),
       dbUpdate
         [(Val.str "a1",
           [("id", Val.str "a1"), ("description", Val.str "old"),
            ("date", Val.str "D"), ("extra", Val.num 7 0)]),
          (Val.str "b2", [("id", Val.str "b2")])]
         (.str "a1") (oget [("description", Val.str "new")] "description")
         (oget [("description", Val.str "new")] "date")) ∧
    olookup (oset (oset
        [("id", Val.str "a1"), ("description", Val.str "old"),
         ("date", Val.str "D"), ("extra", Val.num 7 0)]
        "description" (oget [("description", Val.str "new")] "description")) "date"
        (oget [("description", Val.str "new")] "date")) "id" = some (Val.str "a1") ∧
    olookup (oset (oset
        [("id", Val.str "a1"), ("description", Val.str "old"),
         ("date", Val.str "D"), ("extra", Val.num 7 0)]
        "description" (oget [("description", Val.str "new")] "description")) "date"
        (oget [("description", Val.str "new")] "date")) "extra" = some (Val.num 7 0) ∧
    dbGet (dbUpdate
        [(Val.str "a1",
          [("id", Val.str "a1"), ("description", Val.str "old"),
           ("date", Val.str "D"), ("extra", Val.num 7 0)]),
         (Val.str "b2", [("id", Val.str "b2")])]
        (.str "a1") (oget [("description", Val.str "new")] "description")
        (oget [("description", Val.str "new")] "date")) (.str "b2") =
      some [("id", Val.str "b2")] := by
  have h := C4_put_overwrites_description_date_only "a1" (by decide)
    [("description", Val.str "new")]
    [("id", Val.str "a1"), ("description", Val.str "old"),
     ("date", Val.str "D"), ("extra", Val.num 7 0)]
    [(Val.str "a1",
      [("id", Val.str "a1"), ("description", Val.str "old"),
       ("date", Val.str "D"), ("extra", Val.num 7 0)]),
     (Val.str "b2", [("id", Val.str "b2")])] rfl
  refine ⟨h.1, h.2.2.2.2.1 "id" (by decide) (by decide),
    h.2.2.2.2.1 "extra" (by decide) (by decide), ?_⟩
  have hb := h.2.2.2.2.2 "b2" (by decide)
  rw [hb]
  rfl

/-- Parsing the canonical DELETE event: the binding value passes
through as the resolved identifier whether truthy or falsy (a falsy
binding falls back to the default path `/`, which has no segments), and
the body dict passes through. -/
theorem parse_deleteEvent (iid : Val) (payload : Obj) :
    _parse_event (deleteEvent iid payload) = .ok ("DELETE", .str "/", iid, .obj payload) := by
  have hfb : pathFallbackId "/" iid = iid := rfl
  have hj : jsonLoads "\x7b\x7d" = some (Val.obj []) := rfl
  have hup : pyUpper "DELETE" = "DELETE" := rfl
  cases hb : iid.truthy <;>
    cases payload with
    | nil =>
      simp [_parse_event, deleteEvent, oget, ogetD, olookup, pyGetD, Val.truthy, hb,
        hfb, hj, hup]
    | cons p ps =>
      simp [_parse_event, deleteEvent, oget, ogetD, olookup, pyGetD, Val.truthy, hb,
        hfb, hj, hup]

/-- **C6.** A DELETE resolves its identifier from the path binding when
that is truthy, else from the payload's `id` field; if the resolved
value is falsy the handler answers 400 for every store behavior (no
store call is made, the store is untouched); if it is truthy and the
store delete succeeds, the handler answers 200 with message `deleted`
and the store entry for that key is removed. -/
theorem C6_delete_id_resolution (iid : Val) (payload : Obj) (db : DB) :
    ((if iid.truthy then iid else oget payload "id").truthy = false →
      ∀ so, lambda_handler (deleteEvent iid payload) db so =
        (_response 400 (.obj [("message", .str "id 必須")]), db)) ∧
    ((if iid.truthy then iid else oget payload "id").truthy = true →
      lambda_handler (deleteEvent iid payload) db .ok =
        (_response 200 (.obj [("message", .str "deleted")]),
         dbDelete db (if iid.truthy then iid else oget payload "id"))) := by
  constructor
  · intro h so
    simp [lambda_handler, lambda_handler_core, parse_deleteEvent iid payload, h]
  · intro h
    simp [lambda_handler, lambda_handler_core, parse_deleteEvent iid payload, h]

/-- **C6 witness.** A DELETE with no usable path binding and payload id
`"k"`: the payload identifier wins and the item is removed. -/
theorem C6_delete_id_resolution_witness :
    lambda_handler (deleteEvent .null [("id", Val.str "k")])
        [(Val.str "k", [("id", Val.str "k")])] .ok =
      (_response 200 (.obj [("message", .str "deleted")]),
       dbDelete [(Val.str "k", [("id", Val.str "k")])]
         (if (Val.null).truthy then Val.null else oget [("id", Val.str "k")] "id")) :=
  (C6_delete_id_resolution .null [("id", Val.str "k")]
    [(Val.str "k", [("id", Val.str "k")])]).2 (by decide)

/-- **C10.** The delete identifier is never type-checked: any truthy
payload `id` value — string or not — is passed to the store delete as
the key, and a successful store call yields 200. -/
theorem C10_delete_id_untyped (v : Val) (hv : v.truthy = true) (db : DB) :
    lambda_handler (deleteEvent .null [("id", v)]) db .ok =
      (_response 200 (.obj [("message", .str "deleted")]), dbDelete db v) := by
  have ho : oget [("id", v)] "id" = v := rfl
  simp [lambda_handler, lambda_handler_core, parse_deleteEvent .null [("id", v)],
    show Val.truthy .null = false from rfl, ho, hv]

/-- **C10 witness.** Deleting with the number `5` as payload id: no 400,
the store delete runs with key `5` and the matching entry disappears. -/
theorem C10_delete_id_untyped_witness :
    (Val.num 5 0).truthy = true ∧
    lambda_handler (deleteEvent .null [("id", Val.num 5 0)])
        [(Val.num 5 0, [("id", Val.num 5 0)])] .ok =
      (_response 200 (.obj [("message", .str "deleted")]), []) := by
  constructor
  · decide
  · have h := C10_delete_id_untyped (Val.num 5 0) (by decide)
      [(Val.num 5 0, [("id", Val.num 5 0)])]
    simpa [dbDelete, Val.beq] using h

/-- Master case analysis: whatever the event, store state and store
behavior, the handler's response is well formed (`goodResp`). -/
theorem handler_good (event : Obj) (db : DB) (so : StoreOutcome) :
    goodResp (lambda_handler event db so).1 := by
  unfold lambda_handler goodResp
  split
  next r heq =>
    unfold lambda_handler_core at heq
    repeat' split at heq
    all_goals
      first
        | exact Except.noConfusion heq
        | (injection heq with h1
           subst h1
           refine ⟨rfl, by simp [_response], fun hc => ?_⟩
           first
             | exact ⟨_, rfl⟩
             | exact absurd hc (by simp [_response]))
  next m heq =>
    refine ⟨rfl, ?_, fun hc => ⟨m, rfl⟩⟩
    show (400 : Nat) ∈ _
    decide
  next heq =>
    refine ⟨rfl, ?_, fun hc => ⟨"internal error", rfl⟩⟩
    show (500 : Nat) ∈ _
    decide

/-- **C9.** Every response — success, error and empty-body alike —
carries exactly the four fixed headers, and every error response body
is the JSON encoding of a mapping with a single string `message`
field. -/
theorem C9_fixed_headers_and_error_envelope (event : Obj) (db : DB) (so : StoreOutcome) :
    (lambda_handler event db so).1.headers = CORS_HEADERS ∧
    (400 ≤ (lambda_handler event db so).1.statusCode →
      ∃ m, (lambda_handler event db so).1.body =
        .str (dumps (.obj [("message", .str m)]))) := by
  have h := handler_good event db so
  exact ⟨h.1, h.2.2⟩

/-- **C9 witness.** An unsupported method: the 405 response carries the
fixed headers and a single-`message` JSON body. -/
theorem C9_fixed_headers_and_error_envelope_witness :
    (lambda_handler [("httpMethod", Val.str "PATCH")] [] .ok).1.headers = CORS_HEADERS ∧
    (∃ m, (lambda_handler [("httpMethod", Val.str "PATCH")] [] .ok).1.body =
      .str (dumps (.obj [("message", .str m)]))) := by
  have h := C9_fixed_headers_and_error_envelope [("httpMethod", Val.str "PATCH")] [] .ok
  exact ⟨h.1, h.2 (by decide)⟩

/-- **C7.** The handler always returns a response envelope (with a
status code from its fixed repertoire — it never propagates a failure);
a failure not handled earlier in the pipeline (`PyErr.exc` reaching the
boundary) becomes exactly the generic 500 response, whose message is
the constant `internal error` with no failure detail; and a
`ValueError` (the parse failure) becomes a 400 carrying its message. -/
theorem C7_boundary_never_propagates (event : Obj) (db : DB) (so : StoreOutcome) :
    (lambda_handler event db so).1.statusCode ∈ [200, 201, 204, 400, 404, 405, 500] ∧
    (lambda_handler_core event db so = .error .exc →
      lambda_handler event db so = (_response 500 msgInternal, db)) ∧
    (∀ m, lambda_handler_core event db so = .error (.valueError m) →
      lambda_handler event db so = (_response 400 (.obj [("message", .str m)]), db)) := by
  refine ⟨(handler_good event db so).2.1, ?_, ?_⟩
  · intro h
    simp [lambda_handler, h]
  · intro m h
    simp [lambda_handler, h]

/-- **C7 witness.** A PUT whose body is the JSON string `"null"` makes
the eager `list(body.keys())` raise past the local handlers; the
boundary turns it into the generic 500. -/
theorem C7_boundary_never_propagates_witness :
    (lambda_handler [("httpMethod", Val.str "PUT"), ("body", Val.str "null")] [] .fatal).1.statusCode
      ∈ [200, 201, 204, 400, 404, 405, 500] ∧
    lambda_handler [("httpMethod", Val.str "PUT"), ("body", Val.str "null")] [] .fatal =
      (_response 500 msgInternal, []) := by
  have h := C7_boundary_never_propagates
    [("httpMethod", Val.str "PUT"), ("body", Val.str "null")] [] .fatal
  exact ⟨h.1, h.2.1 rfl⟩

end EnsyuLambda
